import Mathlib

/-!
Verification of the schema extraction layer in src-tauri/src/schema.rs.

The layer sits between an external statement parser (the surrealdb sql
crate) and a set of flat descriptor records that the host application
consumes.  The parser and its AST are external collaborators, so
statement nodes are modelled structurally with every externally rendered
sub-expression abstracted to its canonical text, and the parse function
itself is a parameter of each operation (its type is the boundary given
in the design: text to a sequence of statement nodes or a syntax error
message).

Rust strings are UTF-8 byte sequences and the source slices them at raw
byte offsets, so string slicing is modelled at the byte level over the
UTF-8 encoding of the character sequence.  A Rust panic (byte slice off
a character boundary, reversed or out-of-range slice bounds, indexing an
empty statement sequence) is modelled as `none`.
-/

namespace Surrealist

/-- Number of bytes in the UTF-8 encoding of one character. -/
def utf8Size (c : Char) : Nat :=
  if c.toNat < 0x80 then 1
  else if c.toNat < 0x800 then 2
  else if c.toNat < 0x10000 then 3
  else 4

/-- Number of bytes in the UTF-8 encoding of a character sequence: the
value of `s.len()` on the corresponding Rust string. -/
def utf8Len (l : List Char) : Nat := (l.map utf8Size).sum

/-- Characters whose UTF-8 encoding occupies exactly the first `n` bytes
of the encoding of the list; `none` when byte offset `n` is past the end
or falls strictly inside the encoding of one character, in which case a
Rust byte slice panics. -/
def takeBytes : List Char → Nat → Option (List Char)
  | _, 0 => some []
  | [], _ + 1 => none
  | c :: cs, n + 1 =>
    if utf8Size c ≤ n + 1 then (takeBytes cs (n + 1 - utf8Size c)).map (c :: ·)
    else none

/-- Characters remaining after removing the first `n` bytes of the
encoding; `none` when byte offset `n` is past the end or inside one
character. -/
def dropBytes : List Char → Nat → Option (List Char)
  | l, 0 => some l
  | [], _ + 1 => none
  | c :: cs, n + 1 =>
    if utf8Size c ≤ n + 1 then dropBytes cs (n + 1 - utf8Size c)
    else none

/-- Model of the Rust byte slice `s[i..j]`: `none` exactly when Rust
panics, that is when `i > j`, when `j` is past the end, or when either
bound falls inside a multi-byte character. -/
def byteSlice (l : List Char) (i j : Nat) : Option (List Char) :=
  if i ≤ j then (dropBytes l i).bind (fun t => takeBytes t (j - i)) else none

/-- Model of the wrapping strip `s[1..s.len() - 1].to_owned()` applied in
`extract_scope_definition` and `extract_event_definition`.  On a Rust
string of byte length 0 the index computation underflows and on length 1
the slice bounds are reversed; both panic, and both give `1 > j` here
under natural subtraction, hence `none`. -/
def rustStrip (s : String) : Option String :=
  (byteSlice s.data 1 (utf8Len s.data - 1)).map (fun l => ⟨l⟩)

/-- External expression node (value, idiom, type, condition, changefeed
specification, ...) that this layer reads only through its canonical
rendering, the text produced by `to_string()` on the node. -/
structure Value where
  render : String

/-- External duration value: the surrealdb sql duration wraps a number
of seconds and a number of subsecond nanoseconds. -/
structure Duration where
  secs : Nat
  nanos : Nat

/-- Mirror of `Duration::default()` in the external model: the zero
duration. -/
def Duration.default : Duration := ⟨0, 0⟩

/-- Rendering of a duration by the external model.  The zero duration is
special-cased to the text "0ns" so that the display is never empty;
otherwise the nonzero components are concatenated largest first. -/
def Duration.render (d : Duration) : String :=
  if d.secs = 0 ∧ d.nanos = 0 then "0ns"
  else
    let year := d.secs / 31536000
    let r1 := d.secs % 31536000
    let week := r1 / 604800
    let r2 := r1 % 604800
    let day := r2 / 86400
    let r3 := r2 % 86400
    let hour := r3 / 3600
    let r4 := r3 % 3600
    let mins := r4 / 60
    let sec := r4 % 60
    let msec := d.nanos / 1000000
    let r5 := d.nanos % 1000000
    let usec := r5 / 1000
    let nsec := r5 % 1000
    (if 0 < year then toString year ++ "y" else "") ++
    (if 0 < week then toString week ++ "w" else "") ++
    (if 0 < day then toString day ++ "d" else "") ++
    (if 0 < hour then toString hour ++ "h" else "") ++
    (if 0 < mins then toString mins ++ "m" else "") ++
    (if 0 < sec then toString sec ++ "s" else "") ++
    (if 0 < msec then toString msec ++ "ms" else "") ++
    (if 0 < usec then toString usec ++ "µs" else "") ++
    (if 0 < nsec then toString nsec ++ "ns" else "")

/-- External permission rule.  The external renderer produces the text
NONE, FULL, or a WHERE clause; a permission rule is never rendered with
wrapping parentheses. -/
inductive Permission
  | None
  | Full
  | Specific (v : Value)

/-- Rendering of a permission rule by the external model. -/
def Permission.render : Permission → String
  | .None => "NONE"
  | .Full => "FULL"
  | .Specific v => "WHERE " ++ v.render

/-- External permissions clause: one rule per CRUD action. -/
structure Permissions where
  select : Permission
  create : Permission
  update : Permission
  delete : Permission

/-- External view specification of a table definition. -/
structure View where
  expr : Value
  what : Value
  cond : Option Value
  group : Option Value

/-- Node of a define-scope statement.  The name stands for the raw ident
text (`to_raw()`); comment is the optional strand content. -/
structure ScopeStatement where
  name : String
  signup : Option Value
  signin : Option Value
  session : Option Duration
  comment : Option String

/-- Node of a define-table statement. -/
structure TableStatement where
  name : String
  drop : Bool
  full : Bool
  view : Option View
  permissions : Permissions
  comment : Option String
  changefeed : Option Value

/-- Node of a define-field statement (fields not read by the extraction
layer are omitted). -/
structure FieldStatement where
  name : Value
  flex : Bool
  kind : Option Value
  value : Option Value
  assert : Option Value
  default : Option Value
  permissions : Permissions
  comment : Option String

/-- Node of a define-analyzer statement; tokenizers and filters are
already abstracted to their rendered names. -/
structure AnalyzerStatement where
  name : String
  tokenizers : Option (List String)
  filters : Option (List String)
  comment : Option String

/-- External index strategy discriminant; the Search and MTree payloads
are unread by this layer and abstracted to their rendering. -/
inductive Index
  | Idx
  | Uniq
  | Search (params : String)
  | MTree (params : String)

/-- Node of a define-index statement.  The `render` field is the
canonical text the external serializer produces for the whole node,
which the source reads through `i.to_string()`. -/
structure IndexStatement where
  name : String
  cols : Value
  index : Index
  comment : Option String
  render : String

/-- Node of a define-event statement; `thenClause` models the field
named `then` in the external model (a Lean keyword). -/
structure EventStatement where
  name : String
  when : Value
  thenClause : Value
  comment : Option String

/-- Node of a define-user statement; roles are abstracted to their
rendered names. -/
structure UserStatement where
  name : String
  roles : List String
  comment : Option String

/-- Define-statement variants read by this layer; every other define
kind of the external model is collapsed into `OtherDefine`, which the
source treats uniformly (no pattern matches it). -/
inductive DefineStatement
  | Scope (s : ScopeStatement)
  | Table (t : TableStatement)
  | Field (f : FieldStatement)
  | Analyzer (a : AnalyzerStatement)
  | Index (i : IndexStatement)
  | Event (e : EventStatement)
  | User (u : UserStatement)
  | OtherDefine

/-- Statement variants: define statements and everything else. -/
inductive Statement
  | Define (d : DefineStatement)
  | Other

/-- Boundary of the external statement parser: raw text to an ordered
sequence of statement nodes, or a syntax error message. -/
abbrev Parser := String → Except String (List Statement)

/-- Descriptor of a permissions clause (PermissionInfo in the source). -/
structure PermissionInfo where
  select : String
  create : String
  update : String
  delete : String

/-- Descriptor of a scope definition (ScopeInfo in the source). -/
structure ScopeInfo where
  name : String
  signup : String
  signin : String
  session : String
  comment : String

/-- Descriptor of a table view (TableViewInfo in the source). -/
structure TableViewInfo where
  expr : String
  what : String
  cond : String
  group : String

/-- Descriptor of a table definition (TableInfo in the source). -/
structure TableInfo where
  name : String
  drop : Bool
  schemafull : Bool
  view : Option TableViewInfo
  permissions : PermissionInfo
  comment : String
  changefeed : Bool
  changetime : String

/-- Descriptor of a field definition (FieldInfo in the source). -/
structure FieldInfo where
  name : String
  flexible : Bool
  kind : String
  value : String
  assert : String
  default : String
  permissions : PermissionInfo
  comment : String

/-- Descriptor of an analyzer definition (AnalyzerInfo in the source). -/
structure AnalyzerInfo where
  name : String
  tokenizers : List String
  filters : List String
  comment : String

/-- Closed index kind enumeration (IndexKind in the source). -/
inductive IndexKind
  | Normal
  | Unique
  | Search
  | Vector
deriving DecidableEq

/-- Descriptor of an index definition (IndexInfo in the source). -/
structure IndexInfo where
  name : String
  fields : String
  kind : IndexKind
  search : String
  vector : String
  comment : String

/-- Descriptor of an event definition (EventInfo in the source);
`thenText` models the field named `then` there. -/
structure EventInfo where
  name : String
  cond : String
  thenText : String
  comment : String

/-- Descriptor of a user definition (UserInfo in the source). -/
structure UserInfo where
  name : String
  roles : List String
  comment : String

/-- Model of `parse_permissions`: renders each of the four rules through
the external serializer, copying the text unchanged. -/
def parse_permissions (perms : Permissions) : PermissionInfo :=
  { select := perms.select.render,
    create := perms.create.render,
    update := perms.update.render,
    delete := perms.delete.render }

/-- Model of `parse_comment`: the strand content, or the empty string
when the comment is absent. -/
def parse_comment (comment : Option String) : String :=
  comment.getD ""

/-- Model of `extract_scope_definition`.  The parse function is the
external collaborator; `none` models a panic: indexing an empty
statement sequence, or a byte slice off a character boundary. -/
def extract_scope_definition (p : Parser) (definition : String) :
    Option (Except String ScopeInfo) :=
  match p definition with
  | .error e => some (.error e)
  | .ok parsed =>
    match parsed with
    | [] => none
    | query :: _ =>
      match query with
      | .Define (.Scope s) =>
        let signup := match s.signup with
          | some q => q.render
          | none => "()"
        let signin := match s.signin with
          | some q => q.render
          | none => "()"
        match rustStrip signup, rustStrip signin with
        | some su, some si =>
          some (.ok
            { name := s.name,
              signup := su,
              signin := si,
              session := (s.session.getD Duration.default).render,
              comment := parse_comment s.comment })
        | _, _ => none
      | _ => some (.error "Failed to extract scope")

/-- Model of `extract_table_definition`. -/
def extract_table_definition (p : Parser) (definition : String) :
    Option (Except String TableInfo) :=
  match p definition with
  | .error e => some (.error e)
  | .ok parsed =>
    match parsed with
    | [] => none
    | query :: _ =>
      match query with
      | .Define (.Table t) =>
        let view := t.view.map (fun v =>
          { expr := v.expr.render,
            what := v.what.render,
            cond := (v.cond.map (fun c => c.render)).getD "",
            group := (v.group.map (fun c => c.render)).getD ""
            : TableViewInfo })
        some (.ok
          { name := t.name,
            drop := t.drop,
            schemafull := t.full,
            permissions := parse_permissions t.permissions,
            comment := parse_comment t.comment,
            view := view,
            changefeed := t.changefeed.isSome,
            changetime := (t.changefeed.map (fun c => c.render)).getD "" })
      | _ => some (.error "Failed to extract table")

/-- Model of `extract_field_definition`. -/
def extract_field_definition (p : Parser) (definition : String) :
    Option (Except String FieldInfo) :=
  match p definition with
  | .error e => some (.error e)
  | .ok parsed =>
    match parsed with
    | [] => none
    | query :: _ =>
      match query with
      | .Define (.Field f) =>
        some (.ok
          { name := f.name.render,
            flexible := f.flex,
            kind := (f.kind.map (fun k => k.render)).getD "",
            value := (f.value.map (fun v => v.render)).getD "",
            assert := (f.assert.map (fun a => a.render)).getD "",
            default := (f.default.map (fun v => v.render)).getD "",
            permissions := parse_permissions f.permissions,
            comment := parse_comment f.comment })
      | _ => some (.error "Failed to extract field")

/-- Model of `extract_analyzer_definition`.  Note the kind-mismatch
message of the source at this extractor reads "Failed to extract index",
not "Failed to extract analyzer". -/
def extract_analyzer_definition (p : Parser) (definition : String) :
    Option (Except String AnalyzerInfo) :=
  match p definition with
  | .error e => some (.error e)
  | .ok parsed =>
    match parsed with
    | [] => none
    | query :: _ =>
      match query with
      | .Define (.Analyzer a) =>
        some (.ok
          { name := a.name,
            comment := parse_comment a.comment,
            tokenizers := a.tokenizers.getD [],
            filters := a.filters.getD [] })
      | _ => some (.error "Failed to extract index")

/-- Model of `extract_index_definition`: the full node rendering is
computed once and assigned to the slot selected by the strategy
discriminant. -/
def extract_index_definition (p : Parser) (definition : String) :
    Option (Except String IndexInfo) :=
  match p definition with
  | .error e => some (.error e)
  | .ok parsed =>
    match parsed with
    | [] => none
    | query :: _ =>
      match query with
      | .Define (.Index i) =>
        let index_kind := match i.index with
          | .Idx => IndexKind.Normal
          | .Uniq => IndexKind.Unique
          | .Search _ => IndexKind.Search
          | .MTree _ => IndexKind.Vector
        let empty_str := ""
        let index_str := i.render
        let sv : String × String := match i.index with
          | .Search _ => (index_str, empty_str)
          | .MTree _ => (empty_str, index_str)
          | _ => (empty_str, empty_str)
        some (.ok
          { name := i.name,
            fields := i.cols.render,
            kind := index_kind,
            search := sv.1,
            vector := sv.2,
            comment := parse_comment i.comment })
      | _ => some (.error "Failed to extract index")

/-- Model of `extract_event_definition`; the then clause rendering is
stripped of one leading and one trailing byte like scope signup and
signin. -/
def extract_event_definition (p : Parser) (definition : String) :
    Option (Except String EventInfo) :=
  match p definition with
  | .error e => some (.error e)
  | .ok parsed =>
    match parsed with
    | [] => none
    | query :: _ =>
      match query with
      | .Define (.Event e) =>
        let thenStr := e.thenClause.render
        match rustStrip thenStr with
        | some th =>
          some (.ok
            { name := e.name,
              cond := e.when.render,
              thenText := th,
              comment := parse_comment e.comment })
        | none => none
      | _ => some (.error "Failed to extract event")

/-- Model of `extract_user_definition`. -/
def extract_user_definition (p : Parser) (definition : String) :
    Option (Except String UserInfo) :=
  match p definition with
  | .error e => some (.error e)
  | .ok parsed =>
    match parsed with
    | [] => none
    | query :: _ =>
      match query with
      | .Define (.User u) =>
        some (.ok
          { name := u.name,
            roles := u.roles,
            comment := parse_comment u.comment })
      | _ => some (.error "Failed to extract user")

/-- Model of `validate_query`: success gives no message, failure gives
the parser message itself. -/
def validate_query (p : Parser) (query : String) : Option String :=
  match p query with
  | .ok _ => none
  | .error err => some err

/-- Model of `validate_where_clause`: embed the fragment as the filter
condition of the fixed template statement against the placeholder data
source named table, and report whether the synthesized text parses. -/
def validate_where_clause (p : Parser) (clause : String) : Bool :=
  let query := "SELECT * FROM table WHERE " ++ clause
  match p query with
  | .ok _ => true
  | .error _ => false

/-- Scope node with signup and signin present, whose renderings carry
multi-byte characters inside the parenthesis wrapping. -/
def scWrap : ScopeStatement :=
  { name := "account",
    signup := some ⟨"(CREATE usér)"⟩,
    signin := some ⟨"(SELECT * FROM usér WHERE mail = $mail)"⟩,
    session := none,
    comment := none }

/-- Fixed parse result: one define-scope statement (node `scWrap`). -/
def pScWrap : Parser := fun _ => .ok [.Define (.Scope scWrap)]

/-- Event node whose then-clause rendering carries multi-byte
characters inside the parenthesis wrapping. -/
def evWrap : EventStatement :=
  { name := "publish",
    when := ⟨"$event = \"CREATE\""⟩,
    thenClause := ⟨"(CREATE log SET note = 日本語)"⟩,
    comment := none }

/-- Fixed parse result: one define-event statement (node `evWrap`). -/
def pEvWrap : Parser := fun _ => .ok [.Define (.Event evWrap)]

/-- Scope node with only the signup clause present, its wrapped
rendering holding a multi-byte character. -/
def scUpOnly : ScopeStatement :=
  { name := "account", signup := some ⟨"(CREATE usér)"⟩, signin := none,
    session := none, comment := none }

/-- Fixed parse result: one define-scope statement (node `scUpOnly`). -/
def pScUpOnly : Parser := fun _ => .ok [.Define (.Scope scUpOnly)]

/-- Descriptor the extraction layer produces for `scUpOnly`. -/
def scUpOnlyInfo : ScopeInfo :=
  { name := "account", signup := "CREATE usér", signin := "",
    session := "0ns", comment := "" }

/-- Scope node with only the signin clause present, its wrapped
rendering holding a multi-byte character. -/
def scInOnly : ScopeStatement :=
  { name := "account", signup := none,
    signin := some ⟨"(SELECT * FROM usér WHERE mail = $mail)"⟩,
    session := none, comment := none }

/-- Fixed parse result: one define-scope statement (node `scInOnly`). -/
def pScInOnly : Parser := fun _ => .ok [.Define (.Scope scInOnly)]

/-- Descriptor the extraction layer produces for `scInOnly`. -/
def scInOnlyInfo : ScopeInfo :=
  { name := "account", signup := "",
    signin := "SELECT * FROM usér WHERE mail = $mail",
    session := "0ns", comment := "" }

/-- Minimal scope node: every optional clause absent. -/
def scMinimal : ScopeStatement :=
  { name := "account", signup := none, signin := none,
    session := none, comment := none }

/-- Fixed parse result: one minimal define-scope statement. -/
def pScMinimal : Parser := fun _ => .ok [.Define (.Scope scMinimal)]

/-- Permissions clause whose four rules are the renderer defaults. -/
def permsNone : Permissions := ⟨.None, .None, .None, .None⟩

/-- Minimal table node: every optional clause absent, flags unset. -/
def tMinimal : TableStatement :=
  { name := "person", drop := false, full := false, view := none,
    permissions := permsNone, comment := none, changefeed := none }

/-- Fixed parse result: one minimal define-table statement. -/
def pTMinimal : Parser := fun _ => .ok [.Define (.Table tMinimal)]

/-- Minimal field node: every optional clause absent, flag unset. -/
def fMinimal : FieldStatement :=
  { name := ⟨"mail"⟩, flex := false, kind := none, value := none,
    assert := none, default := none, permissions := permsNone,
    comment := none }

/-- Fixed parse result: one minimal define-field statement. -/
def pFMinimal : Parser := fun _ => .ok [.Define (.Field fMinimal)]

/-- Minimal analyzer node: every optional clause absent. -/
def aMinimal : AnalyzerStatement :=
  { name := "simple", tokenizers := none, filters := none,
    comment := none }

/-- Fixed parse result: one minimal define-analyzer statement. -/
def pAMinimal : Parser := fun _ => .ok [.Define (.Analyzer aMinimal)]

/-- Minimal index node: plain strategy, no comment. -/
def iMinimal : IndexStatement :=
  { name := "mailidx", cols := ⟨"mail"⟩, index := .Idx, comment := none,
    render := "DEFINE INDEX mailidx ON person FIELDS mail" }

/-- Fixed parse result: one minimal define-index statement. -/
def pIMinimal : Parser := fun _ => .ok [.Define (.Index iMinimal)]

/-- Search index node: search strategy with its configuration payload,
and the full node rendering. -/
def iSearch : IndexStatement :=
  { name := "mailidx", cols := ⟨"mail"⟩,
    index := .Search "SEARCH ANALYZER simple BM25",
    comment := none,
    render := "DEFINE INDEX mailidx ON person FIELDS mail SEARCH ANALYZER simple BM25" }

/-- Fixed parse result: one define-index statement with search
strategy. -/
def pISearch : Parser := fun _ => .ok [.Define (.Index iSearch)]

/-- Descriptor the extraction layer produces for `iSearch`. -/
def iSearchInfo : IndexInfo :=
  { name := "mailidx", fields := "mail", kind := .Search,
    search := "DEFINE INDEX mailidx ON person FIELDS mail SEARCH ANALYZER simple BM25",
    vector := "", comment := "" }

/-- Minimal event node: comment absent, wrapped then rendering. -/
def eMinimal : EventStatement :=
  { name := "publish", when := ⟨"true"⟩, thenClause := ⟨"(CREATE log)"⟩,
    comment := none }

/-- Fixed parse result: one minimal define-event statement. -/
def pEMinimal : Parser := fun _ => .ok [.Define (.Event eMinimal)]

/-- Minimal user node: comment absent, no roles on the node. -/
def uMinimal : UserStatement :=
  { name := "admin", roles := [], comment := none }

/-- Fixed parse result: one minimal define-user statement. -/
def pUMinimal : Parser := fun _ => .ok [.Define (.User uMinimal)]

/-- Fixed parse result: the empty statement sequence, the case where
the external parser succeeds while producing zero statements. -/
def pEmptySeq : Parser := fun _ => .ok []

/-- Toy instance of the parser boundary accepting exactly the template
statement with the well-formed fragment embedded. -/
def pTemplate : Parser := fun q =>
  if q = "SELECT * FROM table WHERE age > 18" then .ok [.Other]
  else .error "Parse error: Failed to parse query"

/-- Whitespace-only test on text, used to state the empty-input part of
the validator claims. -/
def isWhitespaceOnly (s : String) : Bool :=
  s.data.all (fun c => c = ' ' || c = '\t' || c = '\n' || c = '\r')

/-- Toy instance of the parser boundary rejecting whitespace-only text
with a fixed non-empty diagnostic. -/
def pRejectBlank : Parser := fun q =>
  if isWhitespaceOnly q then .error "Parse error: Failed to parse query due to unexpected end of input"
  else .ok [.Other]

/-- Every UTF-8 encoding occupies at least one byte per character. -/
theorem utf8Size_pos (c : Char) : 1 ≤ utf8Size c := by
  unfold utf8Size
  repeat' split
  all_goals omega

/-- Taking exactly the bytes of a prefix of characters recovers that
prefix, whatever follows it. -/
theorem takeBytes_append (m r : List Char) :
    takeBytes (m ++ r) (utf8Len m) = some m := by
  induction m with
  | nil => simp [takeBytes, utf8Len]
  | cons c cs ih =>
    have hpos := utf8Size_pos c
    have hlen : utf8Len (c :: cs) = utf8Size c + utf8Len cs := by
      simp [utf8Len]
    rw [hlen, List.cons_append]
    obtain ⟨k, hk⟩ : ∃ k, utf8Size c + utf8Len cs = k + 1 :=
      ⟨utf8Size c + utf8Len cs - 1, by omega⟩
    rw [hk]
    have hle : utf8Size c ≤ k + 1 := by omega
    have hsub : k + 1 - utf8Size c = utf8Len cs := by omega
    simp [takeBytes, hle, hsub, ih]

/-- Stripping applied to a rendering wrapped in one leading and one
trailing parenthesis recovers exactly the inner text, for every inner
text, including text holding multi-byte characters: both slice bounds
land on character boundaries because the wrapper characters are
single-byte. -/
theorem rustStrip_wrapped (m : String) :
    rustStrip ("(" ++ m ++ ")") = some m := by
  obtain ⟨l⟩ := m
  show rustStrip ⟨'(' :: (l ++ [')'])⟩ = some ⟨l⟩
  have hpar : utf8Size '(' = 1 := by decide
  have hlen : utf8Len ('(' :: (l ++ [')'])) = utf8Len l + 2 := by
    simp [utf8Len, hpar]
    have : utf8Size ')' = 1 := by decide
    simp [this]
    omega
  unfold rustStrip byteSlice
  simp only [String.data]
  rw [hlen]
  have h1 : (1:Nat) ≤ utf8Len l + 2 - 1 := by omega
  rw [if_pos h1]
  have hdrop : dropBytes ('(' :: (l ++ [')'])) 1 = some (l ++ [')']) := by
    simp [dropBytes, hpar]
  rw [hdrop]
  have hsub : utf8Len l + 2 - 1 - 1 = utf8Len l := by omega
  simp only [hsub]
  simp [takeBytes_append]

/-- C1: for every scope definition whose signup (respectively signin)
clause is present with the wrapped rendering the external serializer
produces for it — the other clause being either absent or likewise
carrying a wrapped rendering, the only forms the serializer emits — and
for every event definition with the wrapped then rendering, extraction
strips exactly one leading and one trailing character, operating on
character boundaries: for every inner text, including text holding
multi-byte characters, it succeeds without panic and the descriptor
carries exactly the inner text uncorrupted. -/
theorem c1_wrapped_strip :
    (∀ (p : Parser) (txt : String) (s : ScopeStatement) (rest : List Statement)
      (qUp : Value) (mUp : String),
      p txt = .ok (.Define (.Scope s) :: rest) →
      s.signup = some qUp → qUp.render = "(" ++ mUp ++ ")" →
      (s.signin = none ∨
        ∃ qIn mIn, s.signin = some qIn ∧ qIn.render = "(" ++ mIn ++ ")") →
      ∃ info : ScopeInfo, extract_scope_definition p txt = some (.ok info) ∧
        info.signup = mUp) ∧
    (∀ (p : Parser) (txt : String) (s : ScopeStatement) (rest : List Statement)
      (qIn : Value) (mIn : String),
      p txt = .ok (.Define (.Scope s) :: rest) →
      s.signin = some qIn → qIn.render = "(" ++ mIn ++ ")" →
      (s.signup = none ∨
        ∃ qUp mUp, s.signup = some qUp ∧ qUp.render = "(" ++ mUp ++ ")") →
      ∃ info : ScopeInfo, extract_scope_definition p txt = some (.ok info) ∧
        info.signin = mIn) ∧
    (∀ (p : Parser) (txt : String) (e : EventStatement) (rest : List Statement)
      (mTh : String),
      p txt = .ok (.Define (.Event e) :: rest) →
      e.thenClause.render = "(" ++ mTh ++ ")" →
      extract_event_definition p txt = some (.ok
        { name := e.name, cond := e.when.render, thenText := mTh,
          comment := parse_comment e.comment })) := by
  have h0 : rustStrip "()" = some "" := rfl
  refine ⟨?_, ?_, ?_⟩
  · intro p txt s rest qUp mUp hp hup hupr hother
    rcases hother with hin | ⟨qIn, mIn, hin, hinr⟩
    · refine ⟨{ name := s.name, signup := mUp, signin := "",
                session := (s.session.getD Duration.default).render,
                comment := parse_comment s.comment }, ?_, rfl⟩
      simp [extract_scope_definition, hp, hup, hupr, hin, h0, rustStrip_wrapped]
    · refine ⟨{ name := s.name, signup := mUp, signin := mIn,
                session := (s.session.getD Duration.default).render,
                comment := parse_comment s.comment }, ?_, rfl⟩
      simp [extract_scope_definition, hp, hup, hupr, hin, hinr, rustStrip_wrapped]
  · intro p txt s rest qIn mIn hp hin hinr hother
    rcases hother with hup | ⟨qUp, mUp, hup, hupr⟩
    · refine ⟨{ name := s.name, signup := "", signin := mIn,
                session := (s.session.getD Duration.default).render,
                comment := parse_comment s.comment }, ?_, rfl⟩
      simp [extract_scope_definition, hp, hup, hin, hinr, h0, rustStrip_wrapped]
    · refine ⟨{ name := s.name, signup := mUp, signin := mIn,
                session := (s.session.getD Duration.default).render,
                comment := parse_comment s.comment }, ?_, rfl⟩
      simp [extract_scope_definition, hp, hup, hupr, hin, hinr, rustStrip_wrapped]
  · intro p txt e rest mTh hp hthr
    simp [extract_event_definition, hp, hthr, rustStrip_wrapped]

/-- Witness for C1 at concrete wrapped renderings holding multi-byte
characters, exercising a signup-only scope, a signin-only scope, a
scope with both clauses present, and an event. -/
theorem c1_wrapped_strip_witness :
    (∃ info : ScopeInfo,
      extract_scope_definition pScUpOnly "DEFINE SCOPE account" =
        some (.ok info) ∧ info.signup = "CREATE usér") ∧
    (∃ info : ScopeInfo,
      extract_scope_definition pScInOnly "DEFINE SCOPE account" =
        some (.ok info) ∧
      info.signin = "SELECT * FROM usér WHERE mail = $mail") ∧
    (∃ info : ScopeInfo,
      extract_scope_definition pScWrap "DEFINE SCOPE account" =
        some (.ok info) ∧ info.signup = "CREATE usér") ∧
    extract_event_definition pEvWrap "DEFINE EVENT publish" =
      some (.ok { name := "publish", cond := "$event = \"CREATE\"",
                  thenText := "CREATE log SET note = 日本語",
                  comment := "" }) := by
  refine ⟨?_, ?_, ?_, ?_⟩
  · exact c1_wrapped_strip.1 pScUpOnly "DEFINE SCOPE account" scUpOnly []
      ⟨"(CREATE usér)"⟩ "CREATE usér" rfl rfl rfl (Or.inl rfl)
  · exact c1_wrapped_strip.2.1 pScInOnly "DEFINE SCOPE account" scInOnly []
      ⟨"(SELECT * FROM usér WHERE mail = $mail)"⟩
      "SELECT * FROM usér WHERE mail = $mail" rfl rfl rfl (Or.inl rfl)
  · exact c1_wrapped_strip.1 pScWrap "DEFINE SCOPE account" scWrap []
      ⟨"(CREATE usér)"⟩ "CREATE usér" rfl rfl rfl
      (Or.inr ⟨⟨"(SELECT * FROM usér WHERE mail = $mail)"⟩,
        "SELECT * FROM usér WHERE mail = $mail", rfl, rfl⟩)
  · exact c1_wrapped_strip.2.2 pEvWrap "DEFINE EVENT publish" evWrap []
      "CREATE log SET note = 日本語" rfl rfl

/-- C4 (code defect): the kind-mismatch message of the analyzer
extractor does not name the analyzer kind; it is the literal text
"Failed to extract index", identical to the index extractor message, so
distinct kinds do not carry distinct messages.  Both extractors are
evaluated here on the same parse result whose first statement is a
define-table statement. -/
theorem c4_analyzer_message_misnames_kind :
    extract_analyzer_definition pTMinimal "DEFINE TABLE person" =
      some (.error "Failed to extract index") ∧
    extract_index_definition pTMinimal "DEFINE TABLE person" =
      some (.error "Failed to extract index") :=
  ⟨rfl, rfl⟩

/-- C5: when the parse succeeds and the first statement is a
define-field statement, the table extractor fails with the fixed
kind-mismatch message of the table kind; the syntax-error path (which
would return the parser message) is not taken. -/
theorem c5_table_on_field_kind_mismatch :
    ∀ (p : Parser) (txt : String) (f : FieldStatement) (rest : List Statement),
      p txt = .ok (.Define (.Field f) :: rest) →
      extract_table_definition p txt = some (.error "Failed to extract table") := by
  intro p txt f rest hp
  simp [extract_table_definition, hp]

/-- Witness for C5 at a concrete define-field parse result. -/
theorem c5_table_on_field_kind_mismatch_witness :
    extract_table_definition pFMinimal "DEFINE FIELD mail ON person" =
      some (.error "Failed to extract table") :=
  c5_table_on_field_kind_mismatch pFMinimal "DEFINE FIELD mail ON person"
    fMinimal [] rfl

/-- C6: the two-character placeholder substituted for an absent signup
(respectively signin) clause strips to the empty string, so whenever
that clause is absent — independently of the other clause — every
successful extraction carries empty text for it, indistinguishable from
an explicitly empty clause; a scope with both clauses absent extracts
successfully with both texts empty. -/
theorem c6_absent_clause_yields_empty :
    rustStrip "()" = some "" ∧
    (∀ (p : Parser) (txt : String) (s : ScopeStatement) (rest : List Statement),
      p txt = .ok (.Define (.Scope s) :: rest) →
      s.signup = none →
      ∀ info : ScopeInfo, extract_scope_definition p txt = some (.ok info) →
        info.signup = "") ∧
    (∀ (p : Parser) (txt : String) (s : ScopeStatement) (rest : List Statement),
      p txt = .ok (.Define (.Scope s) :: rest) →
      s.signin = none →
      ∀ info : ScopeInfo, extract_scope_definition p txt = some (.ok info) →
        info.signin = "") ∧
    (∀ (p : Parser) (txt : String) (s : ScopeStatement) (rest : List Statement),
      p txt = .ok (.Define (.Scope s) :: rest) →
      s.signup = none → s.signin = none →
      extract_scope_definition p txt = some (.ok
        { name := s.name, signup := "", signin := "",
          session := (s.session.getD Duration.default).render,
          comment := parse_comment s.comment })) := by
  have h0 : rustStrip "()" = some "" := rfl
  refine ⟨rfl, ?_, ?_, ?_⟩
  · intro p txt s rest hp hup info hinfo
    cases hsi : s.signin with
    | none =>
      have hval : extract_scope_definition p txt = some (.ok
          { name := s.name, signup := "", signin := "",
            session := (s.session.getD Duration.default).render,
            comment := parse_comment s.comment }) := by
        simp [extract_scope_definition, hp, hup, hsi, h0]
      rw [hval] at hinfo
      simp only [Option.some.injEq, Except.ok.injEq] at hinfo
      subst hinfo
      rfl
    | some qIn =>
      cases hstrip : rustStrip qIn.render with
      | none =>
        have hval : extract_scope_definition p txt = none := by
          simp [extract_scope_definition, hp, hup, hsi, h0, hstrip]
        rw [hval] at hinfo
        exact absurd hinfo (by simp)
      | some si =>
        have hval : extract_scope_definition p txt = some (.ok
            { name := s.name, signup := "", signin := si,
              session := (s.session.getD Duration.default).render,
              comment := parse_comment s.comment }) := by
          simp [extract_scope_definition, hp, hup, hsi, h0, hstrip]
        rw [hval] at hinfo
        simp only [Option.some.injEq, Except.ok.injEq] at hinfo
        subst hinfo
        rfl
  · intro p txt s rest hp hin info hinfo
    cases hsu : s.signup with
    | none =>
      have hval : extract_scope_definition p txt = some (.ok
          { name := s.name, signup := "", signin := "",
            session := (s.session.getD Duration.default).render,
            comment := parse_comment s.comment }) := by
        simp [extract_scope_definition, hp, hsu, hin, h0]
      rw [hval] at hinfo
      simp only [Option.some.injEq, Except.ok.injEq] at hinfo
      subst hinfo
      rfl
    | some qUp =>
      cases hstrip : rustStrip qUp.render with
      | none =>
        have hval : extract_scope_definition p txt = none := by
          simp [extract_scope_definition, hp, hsu, hin, h0, hstrip]
        rw [hval] at hinfo
        exact absurd hinfo (by simp)
      | some su =>
        have hval : extract_scope_definition p txt = some (.ok
            { name := s.name, signup := su, signin := "",
              session := (s.session.getD Duration.default).render,
              comment := parse_comment s.comment }) := by
          simp [extract_scope_definition, hp, hsu, hin, h0, hstrip]
        rw [hval] at hinfo
        simp only [Option.some.injEq, Except.ok.injEq] at hinfo
        subst hinfo
        rfl
  · intro p txt s rest hp hup hin
    simp [extract_scope_definition, hp, hup, hin, h0]

/-- Witness for C6 at concrete scope definitions: signup absent with
signin present, signin absent with signup present, and both absent. -/
theorem c6_absent_clause_yields_empty_witness :
    (extract_scope_definition pScInOnly "DEFINE SCOPE account" =
      some (.ok scInOnlyInfo) ∧ scInOnlyInfo.signup = "") ∧
    (extract_scope_definition pScUpOnly "DEFINE SCOPE account" =
      some (.ok scUpOnlyInfo) ∧ scUpOnlyInfo.signin = "") ∧
    extract_scope_definition pScMinimal "DEFINE SCOPE account" =
      some (.ok { name := "account", signup := "", signin := "",
                  session := "0ns", comment := "" }) := by
  refine ⟨⟨rfl, ?_⟩, ⟨rfl, ?_⟩, ?_⟩
  · exact c6_absent_clause_yields_empty.2.1 pScInOnly "DEFINE SCOPE account"
      scInOnly [] rfl rfl scInOnlyInfo rfl
  · exact c6_absent_clause_yields_empty.2.2.1 pScUpOnly "DEFINE SCOPE account"
      scUpOnly [] rfl rfl scUpOnlyInfo rfl
  · exact c6_absent_clause_yields_empty.2.2.2 pScMinimal "DEFINE SCOPE account"
      scMinimal [] rfl rfl rfl

/-- C9: the permissions mapper copies the render of each of the four
rules unchanged, stripping nothing, and always returns a descriptor. -/
theorem c9_permissions_render_exact :
    ∀ perms : Permissions,
      parse_permissions perms =
        { select := perms.select.render, create := perms.create.render,
          update := perms.update.render, delete := perms.delete.render } :=
  fun _ => rfl

/-- C10: when the external parser succeeds while producing zero
statements, every one of the seven extraction operations indexes the
first element of the empty sequence and panics instead of returning an
extraction error. -/
theorem c10_empty_sequence_panics :
    ∀ (p : Parser) (txt : String), p txt = .ok [] →
      extract_scope_definition p txt = none ∧
      extract_table_definition p txt = none ∧
      extract_field_definition p txt = none ∧
      extract_analyzer_definition p txt = none ∧
      extract_index_definition p txt = none ∧
      extract_event_definition p txt = none ∧
      extract_user_definition p txt = none := by
  intro p txt h
  simp [extract_scope_definition, extract_table_definition,
        extract_field_definition, extract_analyzer_definition,
        extract_index_definition, extract_event_definition,
        extract_user_definition, h]

/-- C2: for every successfully extracted index definition, the kind
discriminant alone selects which configuration slot holds the node
rendering: Search populates the search text (non-empty whenever the
external rendering of a search index is non-empty) and leaves the
vector text empty, Vector the reverse, and Normal and Unique leave both
empty. -/
theorem c2_index_mutual_exclusion :
    ∀ (p : Parser) (txt : String) (i : IndexStatement) (rest : List Statement),
      p txt = .ok (.Define (.Index i) :: rest) →
      (∀ ps, i.index = .Search ps → i.render ≠ "") →
      (∀ ps, i.index = .MTree ps → i.render ≠ "") →
      ∀ info : IndexInfo, extract_index_definition p txt = some (.ok info) →
        (info.kind = .Search ↔ ∃ ps, i.index = .Search ps) ∧
        (info.kind = .Vector ↔ ∃ ps, i.index = .MTree ps) ∧
        (info.kind = .Normal ↔ i.index = .Idx) ∧
        (info.kind = .Unique ↔ i.index = .Uniq) ∧
        (info.kind = .Search → info.search ≠ "" ∧ info.vector = "") ∧
        (info.kind = .Vector → info.vector ≠ "" ∧ info.search = "") ∧
        ((info.kind = .Normal ∨ info.kind = .Unique) →
          info.search = "" ∧ info.vector = "") := by
  intro p txt i rest hp hrS hrM info hinfo
  cases hidx : i.index with
  | Idx =>
    have hval : extract_index_definition p txt = some (.ok
        { name := i.name, fields := i.cols.render, kind := .Normal,
          search := "", vector := "", comment := parse_comment i.comment }) := by
      simp [extract_index_definition, hp, hidx]
    rw [hval] at hinfo
    simp only [Option.some.injEq, Except.ok.injEq] at hinfo
    subst hinfo
    simp [hidx]
  | Uniq =>
    have hval : extract_index_definition p txt = some (.ok
        { name := i.name, fields := i.cols.render, kind := .Unique,
          search := "", vector := "", comment := parse_comment i.comment }) := by
      simp [extract_index_definition, hp, hidx]
    rw [hval] at hinfo
    simp only [Option.some.injEq, Except.ok.injEq] at hinfo
    subst hinfo
    simp [hidx]
  | Search ps =>
    have hval : extract_index_definition p txt = some (.ok
        { name := i.name, fields := i.cols.render, kind := .Search,
          search := i.render, vector := "",
          comment := parse_comment i.comment }) := by
      simp [extract_index_definition, hp, hidx]
    rw [hval] at hinfo
    simp only [Option.some.injEq, Except.ok.injEq] at hinfo
    subst hinfo
    have hr := hrS ps hidx
    simp [hidx, hr]
  | MTree ps =>
    have hval : extract_index_definition p txt = some (.ok
        { name := i.name, fields := i.cols.render, kind := .Vector,
          search := "", vector := i.render,
          comment := parse_comment i.comment }) := by
      simp [extract_index_definition, hp, hidx]
    rw [hval] at hinfo
    simp only [Option.some.injEq, Except.ok.injEq] at hinfo
    subst hinfo
    have hr := hrM ps hidx
    simp [hidx, hr]

/-- Witness for C2 at a concrete search index. -/
theorem c2_index_mutual_exclusion_witness :
    extract_index_definition pISearch "DEFINE INDEX mailidx" =
      some (.ok iSearchInfo) ∧
    iSearchInfo.kind = .Search ∧
    iSearchInfo.search ≠ "" ∧ iSearchInfo.vector = "" := by
  have h := c2_index_mutual_exclusion pISearch "DEFINE INDEX mailidx"
    iSearch [] rfl (fun _ _ => by decide) (fun _ _ => by decide)
    iSearchInfo rfl
  exact ⟨rfl, rfl, (h.2.2.2.2.1 rfl).1, (h.2.2.2.2.1 rfl).2⟩

/-- C3 counterexample: extraction of the concrete minimal scope
definition, with every optional clause absent, yields session text
"0ns" (the rendering of the defaulted zero duration), which is not the
empty string the claim requires for every free-text field. -/
theorem c3_counterexample_session_default :
    extract_scope_definition pScMinimal "DEFINE SCOPE account" =
      some (.ok { name := "account", signup := "", signin := "",
                  session := "0ns", comment := "" }) ∧
    "0ns" ≠ "" :=
  ⟨rfl, by decide⟩

/-- C3 (amended): for every object kind, a definition node with every
optional clause absent extracts to the stated defaults — booleans
false, collections empty, free text empty — except the scope session
text, which is the rendering of the defaulted zero duration ("0ns"),
not the empty string. -/
theorem c3_minimal_defaults :
    (∀ (p : Parser) (txt : String) (s : ScopeStatement) (rest : List Statement),
      p txt = .ok (.Define (.Scope s) :: rest) →
      s.signup = none → s.signin = none → s.session = none → s.comment = none →
      extract_scope_definition p txt = some (.ok
        { name := s.name, signup := "", signin := "",
          session := "0ns", comment := "" })) ∧
    (∀ (p : Parser) (txt : String) (t : TableStatement) (rest : List Statement),
      p txt = .ok (.Define (.Table t) :: rest) →
      t.drop = false → t.full = false → t.view = none →
      t.comment = none → t.changefeed = none →
      extract_table_definition p txt = some (.ok
        { name := t.name, drop := false, schemafull := false, view := none,
          permissions := parse_permissions t.permissions, comment := "",
          changefeed := false, changetime := "" })) ∧
    (∀ (p : Parser) (txt : String) (f : FieldStatement) (rest : List Statement),
      p txt = .ok (.Define (.Field f) :: rest) →
      f.flex = false → f.kind = none → f.value = none →
      f.assert = none → f.default = none → f.comment = none →
      extract_field_definition p txt = some (.ok
        { name := f.name.render, flexible := false, kind := "", value := "",
          assert := "", default := "",
          permissions := parse_permissions f.permissions, comment := "" })) ∧
    (∀ (p : Parser) (txt : String) (a : AnalyzerStatement) (rest : List Statement),
      p txt = .ok (.Define (.Analyzer a) :: rest) →
      a.tokenizers = none → a.filters = none → a.comment = none →
      extract_analyzer_definition p txt = some (.ok
        { name := a.name, tokenizers := [], filters := [], comment := "" })) ∧
    (∀ (p : Parser) (txt : String) (i : IndexStatement) (rest : List Statement),
      p txt = .ok (.Define (.Index i) :: rest) →
      i.index = .Idx → i.comment = none →
      extract_index_definition p txt = some (.ok
        { name := i.name, fields := i.cols.render, kind := .Normal,
          search := "", vector := "", comment := "" })) ∧
    (∀ (p : Parser) (txt : String) (e : EventStatement) (rest : List Statement),
      p txt = .ok (.Define (.Event e) :: rest) →
      e.comment = none →
      ∀ info : EventInfo, extract_event_definition p txt = some (.ok info) →
        info.comment = "") ∧
    (∀ (p : Parser) (txt : String) (u : UserStatement) (rest : List Statement),
      p txt = .ok (.Define (.User u) :: rest) →
      u.roles = [] → u.comment = none →
      extract_user_definition p txt = some (.ok
        { name := u.name, roles := [], comment := "" })) := by
  have h0 : rustStrip "()" = some "" := rfl
  have h1 : Duration.render Duration.default = "0ns" := rfl
  refine ⟨?_, ?_, ?_, ?_, ?_, ?_, ?_⟩
  · intro p txt s rest hp hup hin hse hc
    simp [extract_scope_definition, hp, hup, hin, hse, hc, h0, h1, parse_comment]
  · intro p txt t rest hp hd hf hv hc hcf
    simp [extract_table_definition, hp, hd, hf, hv, hc, hcf, parse_comment]
  · intro p txt f rest hp hfl hk hv ha hd hc
    simp [extract_field_definition, hp, hfl, hk, hv, ha, hd, hc, parse_comment]
  · intro p txt a rest hp ht hf hc
    simp [extract_analyzer_definition, hp, ht, hf, hc, parse_comment]
  · intro p txt i rest hp hik hc
    simp [extract_index_definition, hp, hik, hc, parse_comment]
  · intro p txt e rest hp hc info hinfo
    simp [extract_event_definition, hp, hc, parse_comment] at hinfo
    cases hstrip : rustStrip e.thenClause.render with
    | none => simp [hstrip] at hinfo
    | some th =>
      rw [hstrip] at hinfo
      simp at hinfo
      rw [← hinfo]
  · intro p txt u rest hp hr hc
    simp [extract_user_definition, hp, hr, hc, parse_comment]

/-- Witness for C3 (amended) at concrete minimal nodes of all seven
kinds. -/
theorem c3_minimal_defaults_witness :
    extract_scope_definition pScMinimal "DEFINE SCOPE account" =
      some (.ok { name := "account", signup := "", signin := "",
                  session := "0ns", comment := "" }) ∧
    extract_table_definition pTMinimal "DEFINE TABLE person" =
      some (.ok { name := "person", drop := false, schemafull := false,
                  view := none,
                  permissions := { select := "NONE", create := "NONE",
                                   update := "NONE", delete := "NONE" },
                  comment := "", changefeed := false, changetime := "" }) ∧
    extract_field_definition pFMinimal "DEFINE FIELD mail ON person" =
      some (.ok { name := "mail", flexible := false, kind := "", value := "",
                  assert := "", default := "",
                  permissions := { select := "NONE", create := "NONE",
                                   update := "NONE", delete := "NONE" },
                  comment := "" }) ∧
    extract_analyzer_definition pAMinimal "DEFINE ANALYZER simple" =
      some (.ok { name := "simple", tokenizers := [], filters := [],
                  comment := "" }) ∧
    extract_index_definition pIMinimal "DEFINE INDEX mailidx" =
      some (.ok { name := "mailidx", fields := "mail", kind := .Normal,
                  search := "", vector := "", comment := "" }) ∧
    extract_user_definition pUMinimal "DEFINE USER admin" =
      some (.ok { name := "admin", roles := [], comment := "" }) := by
  refine ⟨?_, ?_, ?_, ?_, ?_, ?_⟩
  · exact c3_minimal_defaults.1 pScMinimal "DEFINE SCOPE account"
      scMinimal [] rfl rfl rfl rfl rfl
  · exact c3_minimal_defaults.2.1 pTMinimal "DEFINE TABLE person"
      tMinimal [] rfl rfl rfl rfl rfl rfl
  · exact c3_minimal_defaults.2.2.1 pFMinimal "DEFINE FIELD mail ON person"
      fMinimal [] rfl rfl rfl rfl rfl rfl rfl
  · exact c3_minimal_defaults.2.2.2.1 pAMinimal "DEFINE ANALYZER simple"
      aMinimal [] rfl rfl rfl rfl
  · exact c3_minimal_defaults.2.2.2.2.1 pIMinimal "DEFINE INDEX mailidx"
      iMinimal [] rfl rfl rfl
  · exact c3_minimal_defaults.2.2.2.2.2.2 pUMinimal "DEFINE USER admin"
      uMinimal [] rfl rfl rfl

/-- C7: the where-clause validator embeds the fragment as the filter
condition of the one fixed template statement against the placeholder
data source named table, and returns exactly whether the synthesized
statement parses; for a parser boundary accepting the template with the
fragment age greater than 18 and rejecting it with the dangling
fragment, the validator returns true and false respectively. -/
theorem c7_where_clause_template :
    ∀ p : Parser,
      (∃ stmts, p "SELECT * FROM table WHERE age > 18" = .ok stmts) →
      (∃ err, p "SELECT * FROM table WHERE age > " = .error err) →
      (∀ clause stmts, p ("SELECT * FROM table WHERE " ++ clause) = .ok stmts →
        validate_where_clause p clause = true) ∧
      (∀ clause err, p ("SELECT * FROM table WHERE " ++ clause) = .error err →
        validate_where_clause p clause = false) ∧
      validate_where_clause p "age > 18" = true ∧
      validate_where_clause p "age > " = false := by
  intro p h18 hbad
  have hok : ∀ clause stmts,
      p ("SELECT * FROM table WHERE " ++ clause) = .ok stmts →
      validate_where_clause p clause = true := by
    intro clause stmts h
    simp [validate_where_clause, h]
  have herr : ∀ clause err,
      p ("SELECT * FROM table WHERE " ++ clause) = .error err →
      validate_where_clause p clause = false := by
    intro clause err h
    simp [validate_where_clause, h]
  obtain ⟨stmts, h1⟩ := h18
  obtain ⟨err, h2⟩ := hbad
  have e1 : "SELECT * FROM table WHERE " ++ "age > 18" =
      "SELECT * FROM table WHERE age > 18" := rfl
  have e2 : "SELECT * FROM table WHERE " ++ "age > " =
      "SELECT * FROM table WHERE age > " := rfl
  exact ⟨hok, herr, hok "age > 18" stmts (by rw [e1]; exact h1),
         herr "age > " err (by rw [e2]; exact h2)⟩

/-- Witness for C7 at a concrete instance of the parser boundary. -/
theorem c7_where_clause_template_witness :
    validate_where_clause pTemplate "age > 18" = true ∧
    validate_where_clause pTemplate "age > " = false := by
  have h := c7_where_clause_template pTemplate ⟨[.Other], rfl⟩
    ⟨"Parse error: Failed to parse query", rfl⟩
  exact ⟨h.2.2.1, h.2.2.2⟩

/-- C8: the query validator is a total function that returns no message
exactly when the parser succeeds and returns the parser message itself
on failure; under the external fact that whitespace-only input fails to
parse with a non-empty diagnostic, such input yields a non-empty error
message. -/
theorem c8_validate_query_total :
    ∀ p : Parser,
      (∀ q, isWhitespaceOnly q = true → ∃ err, p q = .error err ∧ err ≠ "") →
      (∀ q stmts, p q = .ok stmts → validate_query p q = none) ∧
      (∀ q err, p q = .error err → validate_query p q = some err) ∧
      (∀ q, isWhitespaceOnly q = true →
        ∃ err, validate_query p q = some err ∧ err ≠ "") := by
  intro p hws
  refine ⟨?_, ?_, ?_⟩
  · intro q stmts h
    simp [validate_query, h]
  · intro q err h
    simp [validate_query, h]
  · intro q hq
    obtain ⟨err, herr, hne⟩ := hws q hq
    exact ⟨err, by simp [validate_query, herr], hne⟩

/-- Witness for C8: the empty string is whitespace-only and the
validator converts the parser rejection into its non-empty message
without raising. -/
theorem c8_validate_query_total_witness :
    validate_query pRejectBlank "" =
      some "Parse error: Failed to parse query due to unexpected end of input" ∧
    "Parse error: Failed to parse query due to unexpected end of input" ≠ "" := by
  constructor
  · exact (c8_validate_query_total pRejectBlank
      (fun q hq => ⟨"Parse error: Failed to parse query due to unexpected end of input",
        by simp [pRejectBlank, hq], by decide⟩)).2.1 ""
      "Parse error: Failed to parse query due to unexpected end of input" rfl
  · decide

/-- Witness for C10 at the concrete parse result holding zero
statements. -/
theorem c10_empty_sequence_panics_witness :
    extract_scope_definition pEmptySeq "" = none ∧
    extract_table_definition pEmptySeq "" = none ∧
    extract_field_definition pEmptySeq "" = none ∧
    extract_analyzer_definition pEmptySeq "" = none ∧
    extract_index_definition pEmptySeq "" = none ∧
    extract_event_definition pEmptySeq "" = none ∧
    extract_user_definition pEmptySeq "" = none :=
  c10_empty_sequence_panics pEmptySeq "" rfl

end Surrealist
